import Mathlib

/-!
Verification of the spreadsheet cost-report scanner `procesar_hoja_compleja`
from `src/pages/dashboard_frutales.py`.

The scanner receives a raw sheet (a pandas DataFrame read with `header=None`)
and a sheet/category label, and returns the list of extracted cost records.
We embed the grid as a list of rows of `Cell` values (blank / numeric / text),
mirror the source's string coercions (`str`, `.lower()`, `.strip()`,
substring tests, `split("-")`, `float(...)`) and its control flow, and model
Python's `IndexError` explicitly: the accesses performed inside the source's
`try` block turn an out-of-range index into "skip this row", while the two
accesses performed outside of it (`row.values[0]` at line 67 and
`row.values[col_semana_idx]` at line 84) abort the whole scan, which we
represent with `Except Unit`.

Numeric cells are rationals; their Python text form (`str(float)`) is
rendered as `<int>.0` for integral values (the only numeric shapes the
reports contain); no token the scanner searches for can occur in a numeric
rendering either way.  `String.toLower` models Python's `.lower()` on the
ASCII letters the header tokens consist of.
-/

namespace Frutales

/-- A spreadsheet cell: blank (pandas `NaN`), numeric, or text. -/
inductive Cell where
  | empty : Cell
  | num : ℚ → Cell
  | text : String → Cell
  deriving DecidableEq, Repr

abbrev Row := List Cell

abbrev Grid := List Row

/-- `pd.isna` on a cell: true exactly for the blank cell. -/
def Cell.isNA : Cell → Bool
  | .empty => true
  | _ => false

/-!
String primitives.  The scanner only needs substring tests, `lower`,
`strip`, `split` on a one-character separator, and decimal rendering and
parsing.  We implement them by structural recursion over the character
list (so that every concrete scan reduces inside the kernel); each matches
the Python primitive it stands for on the character shapes the reports use.
-/

/-- `pat` starts `l`. -/
def listStartsWith : List Char → List Char → Bool
  | [], _ => true
  | _ :: _, [] => false
  | c :: cs, d :: ds => c = d && listStartsWith cs ds

/-- `l` contains `pat` as a contiguous sublist. -/
def listHasSub (pat : List Char) : List Char → Bool
  | [] => listStartsWith pat []
  | d :: ds => listStartsWith pat (d :: ds) || listHasSub pat ds

/-- Python's substring test `pat in s`. -/
def strContains (s pat : String) : Bool :=
  listHasSub pat.toList s.toList

/-- Python `s.lower()` (the tokens involved are ASCII; non-ASCII characters
such as `ó` are already lower case where they occur). -/
def pyLower (s : String) : String :=
  String.mk (s.toList.map Char.toLower)

/-- A Python `str.strip` whitespace character. -/
def isWS (c : Char) : Bool :=
  c = ' ' || c = '\t' || c = '\n' || c = '\x0d'

/-- Python `s.strip()`. -/
def pyStrip (s : String) : String :=
  String.mk (((s.toList.dropWhile isWS).reverse.dropWhile isWS).reverse)

/-- Python `s.split(sep)` for a one-character separator. -/
def splitChar (sep : Char) : List Char → List (List Char)
  | [] => [[]]
  | c :: t =>
    match splitChar sep t with
    | [] => [[]]
    | h :: r => if c = sep then [] :: h :: r else (c :: h) :: r

/-- Decimal digits of a natural number (fuel-structural so it reduces). -/
def natDigitsAux : Nat → Nat → List Char → List Char
  | 0, _, acc => acc
  | fuel + 1, n, acc =>
    if n < 10 then Char.ofNat (48 + n) :: acc
    else natDigitsAux fuel (n / 10) (Char.ofNat (48 + n % 10) :: acc)

/-- Decimal rendering of a natural number. -/
def natStr (n : Nat) : String :=
  String.mk (natDigitsAux (n + 1) n [])

/-- Decimal rendering of an integer. -/
def intStr : Int → String
  | .ofNat n => natStr n
  | .negSucc n => "-" ++ natStr (n + 1)

/-- Python `str(float)` for the numeric values occurring in the reports:
integral values render as `"<int>.0"`; non-integral values are rendered
`num/den` (no such value occurs in the reports, and no rendering of a number
can contain any of the alphabetic tokens the scanner searches for). -/
def floatStr (q : ℚ) : String :=
  if q.den = 1 then intStr q.num ++ ".0" else intStr q.num ++ "/" ++ natStr q.den

/-- Python `str(x)` applied to a raw cell: `NaN` prints as `"nan"`. -/
def pyStr : Cell → String
  | .empty => "nan"
  | .num q => floatStr q
  | .text s => s

/-- Value of a digit string. -/
def digitsToNat (l : List Char) : Nat :=
  l.foldl (fun a c => 10 * a + (c.toNat - 48)) 0

/-- Python `float(s)` on a string, for the decimal shapes the reports use:
optional surrounding whitespace, optional sign, digits with an optional
single decimal point (at least one digit overall); anything else raises
`ValueError`, i.e. returns `none`.  (Exponent notation is not needed by any
cell of this report family.) -/
def pyFloat? (s : String) : Option ℚ :=
  let l := (pyStrip s).toList
  let signed : Bool × List Char :=
    match l with
    | '-' :: rest => (true, rest)
    | '+' :: rest => (false, rest)
    | _ => (false, l)
  let mk : ℚ → Option ℚ := fun q => some (if signed.1 then -q else q)
  match splitChar '.' signed.2 with
  | [a] =>
    if a ≠ [] ∧ a.all Char.isDigit then mk (digitsToNat a) else none
  | [a, b] =>
    if (a ≠ [] ∨ b ≠ []) ∧ a.all Char.isDigit ∧ b.all Char.isDigit then
      mk ((digitsToNat a : ℚ) + (digitsToNat b : ℚ) / ((10 : ℚ) ^ b.length))
    else none
  | _ => none

/-- Python `float(x)` on a raw cell value as used at line 102 of the source
(the blank cell is filtered out by the `pd.isna` guard before this point). -/
def tryFloat : Cell → Option ℚ
  | .num q => some q
  | .text s => pyFloat? s
  | .empty => none

/-- The three column indices the scanner maintains
(`col_semana_idx`, `col_actividad_idx`, `col_costo_idx`). -/
structure Cols where
  semana : Nat
  actividad : Nat
  costo : Nat
  deriving DecidableEq, Repr

/-- One output record (the dict appended at lines 107-113 of the source).
`semana` keeps the raw cell value exactly as the source stores it. -/
structure CostEntry where
  mes : String
  semana : Cell
  actividad : String
  costo_USD : ℚ
  categoria : String
  deriving DecidableEq, Repr

/-- Header token for the week column: `"semana" in val and "lunes" in val`. -/
def semTok (v : String) : Bool :=
  strContains v "semana" && strContains v "lunes"

/-- Header token for the cost column: `"costo total" in val and "dólar" in val`. -/
def costoTok (v : String) : Bool :=
  strContains v "costo total" && strContains v "dólar"

/-- Header token for the activity column:
`"actividad" in val or "insumo" in val or "detalle" in val`. -/
def actTok (v : String) : Bool :=
  strContains v "actividad" || strContains v "insumo" || strContains v "detalle"

/-- `[str(x).lower() for x in df_raw.iloc[r].values]` (line 48). -/
def rowStrsLower (r : Row) : List String :=
  r.map (fun x => pyLower (pyStr x))

/-- The `(column index, lowered text)` pairs inspected by the initial column
sweep, in row-major order over the first `min(20, len(df_raw))` rows
(lines 47-49). -/
def scannedCells (g : Grid) : List (Nat × String) :=
  (g.take 20).flatMap (fun r => (rowStrsLower r).enum)

/-- One step of the column sweep (lines 50-55); the three tests are
independent `if`s, each overwriting its index on a match. -/
def detectStep (acc : Int × Int × Int) (c : Nat × String) : Int × Int × Int :=
  ((if semTok c.2 then (c.1 : Int) else acc.1),
   (if costoTok c.2 then (c.1 : Int) else acc.2.1),
   (if actTok c.2 then (c.1 : Int) else acc.2.2))

/-- The raw `(col_semana_idx, col_costo_idx, col_actividad_idx)` triple after
the sweep, starting from the `-1` sentinels. -/
def detectRaw (g : Grid) : Int × Int × Int :=
  (scannedCells g).foldl detectStep (-1, -1, -1)

/-- The column layout actually used for the whole scan: sweep result with the
`-1` sentinels replaced by the fixed defaults 0 / 2 / 9 (lines 57-61). -/
def detectCols (g : Grid) : Cols :=
  { semana := (if (detectRaw g).1 = -1 then 0 else (detectRaw g).1).toNat
    actividad := (if (detectRaw g).2.2 = -1 then 2 else (detectRaw g).2.2).toNat
    costo := (if (detectRaw g).2.1 = -1 then 9 else (detectRaw g).2.1).toNat }

/-- The first cell of the row (in order) whose `str` form contains the
literal `"Mes -"` (lines 72-79); the month branch fires exactly when this is
`some`. -/
def mesCell? (r : Row) : Option String :=
  (r.map pyStr).find? (fun s => strContains s "Mes -")

/-- Month extracted from a matched cell: `cell.split("-")[1].strip()`
(a cell containing `"Mes -"` always splits into at least two parts, so the
source's `len(parts) > 1` test always succeeds on a matched cell). -/
def monthFrom (cell : String) : String :=
  pyStrip (String.mk ((splitChar '-' cell.toList).getD 1 []))

/-- How one row updates the current-month state. -/
def monthUpd (m : String) (r : Row) : String :=
  match mesCell? r with
  | some c => monthFrom c
  | none => m

/-- Current-month state after scanning a list of rows. -/
def monthAfter (m : String) (g : Grid) : String :=
  g.foldl monthUpd m

/-- Lines 83-116 for a non-month row whose week cell was read successfully:
skip repeated headers ("Semana"/"Rubro" in the week cell), then run the
`try` block — a failed cost or activity access (`IndexError`, caught), a
blank or unparsable cost cell, all merely skip the row (`none`); otherwise
the entry is emitted.  No branch here can abort the scan. -/
def rowEntry (c : Cols) (cat m : String) (r : Row) (wcell : Cell) : Option CostEntry :=
  if strContains (pyStr wcell) "Semana" || strContains (pyStr wcell) "Rubro" then none
  else
    match r.get? c.costo with
    | none => none
    | some ccell =>
      match r.get? c.actividad with
      | none => none
      | some acell =>
        if ccell.isNA || pyStrip (pyStr ccell) = "" || pyLower (pyStr ccell) = "nan" then none
        else
          match tryFloat ccell with
          | none => none
          | some q =>
            some { mes := m
                   semana := if wcell.isNA then Cell.text "S/N" else wcell
                   actividad := if acell.isNA then "Varios" else pyStr acell
                   costo_USD := q
                   categoria := cat }

/-- The body of the row loop (lines 64-116).  Returns the new current-month
state and the entry emitted by this row, if any; `Except.error` models an
uncaught `IndexError`: `str(row.values[0])` on an empty row (line 67) and the
week-column access at line 84 sit outside the `try` and abort the scan. -/
def stepRow (c : Cols) (cat m : String) (r : Row) : Except Unit (String × Option CostEntry) :=
  if r.isEmpty then .error ()
  else
    match mesCell? r with
    | some cell => .ok (monthFrom cell, none)
    | none =>
      match r.get? c.semana with
      | none => .error ()
      | some wcell => .ok (m, rowEntry c cat m r wcell)

/-- The row loop, threading the current-month state. -/
def scanFrom (c : Cols) (cat : String) : String → Grid → Except Unit (List CostEntry)
  | _, [] => .ok []
  | m, r :: rs =>
    match stepRow c cat m r with
    | .error e => .error e
    | .ok (m', e?) =>
      match scanFrom c cat m' rs with
      | .error e => .error e
      | .ok es => .ok (e?.toList ++ es)

/-- `procesar_hoja_compleja(df_raw, nombre_hoja)`: column sweep over the first
20 rows, then the row loop starting from month `"Desconocido"`. -/
def procesar_hoja_compleja (g : Grid) (cat : String) : Except Unit (List CostEntry) :=
  scanFrom (detectCols g) cat "Desconocido" g

/-- Declarative "last match wins" column index, following the spec's words:
the column of the last cell (row-major over the inspected region) whose
lowered text matches the field's token test, or the default. -/
def lastMatchIdx (p : String → Bool) (g : Grid) (d : Nat) : Nat :=
  match (scannedCells g).reverse.find? (fun ic => p ic.2) with
  | some ic => ic.1
  | none => d

/-- Declarative column layout (spec reading of the sweep): each field is the
last matching cell's column among the first `min(20, number of rows)` rows,
with
defaults `week=0, activity=2, cost=9`. -/
def detectColsSpec (g : Grid) : Cols :=
  { semana := lastMatchIdx semTok g 0
    actividad := lastMatchIdx actTok g 2
    costo := lastMatchIdx costoTok g 9 }

/-! ## Helper lemmas: the column sweep -/

/-- A fold that overwrites its accumulator at every match computes the last
match (first match of the reversed list), or keeps its initial value. -/
theorem foldl_overwrite (p : Nat × String → Bool) (l : List (Nat × String)) (init : Int) :
    l.foldl (fun a c => if p c then (c.1 : Int) else a) init
      = match l.reverse.find? p with
        | some ic => (ic.1 : Int)
        | none => init := by
  induction l generalizing init with
  | nil => rfl
  | cons x l ih =>
    rw [List.foldl_cons, ih, List.reverse_cons, List.find?_append]
    cases h : l.reverse.find? p with
    | some ic => simp [h, Option.or]
    | none => cases hp : p x <;> simp [h, hp, List.find?, Option.or]

/-- The simultaneous three-field sweep is the product of three independent
overwriting folds. -/
theorem foldl_detectStep (l : List (Nat × String)) (a b c : Int) :
    l.foldl detectStep (a, b, c)
      = (l.foldl (fun x ic => if semTok ic.2 then (ic.1 : Int) else x) a,
         l.foldl (fun x ic => if costoTok ic.2 then (ic.1 : Int) else x) b,
         l.foldl (fun x ic => if actTok ic.2 then (ic.1 : Int) else x) c) := by
  induction l generalizing a b c with
  | nil => rfl
  | cons x l ih => rw [List.foldl_cons, List.foldl_cons, List.foldl_cons, List.foldl_cons]; exact ih _ _ _

theorem detectRaw_char (g : Grid) :
    detectRaw g
      = ((match (scannedCells g).reverse.find? (fun ic => semTok ic.2) with
          | some ic => (ic.1 : Int)
          | none => -1),
         (match (scannedCells g).reverse.find? (fun ic => costoTok ic.2) with
          | some ic => (ic.1 : Int)
          | none => -1),
         (match (scannedCells g).reverse.find? (fun ic => actTok ic.2) with
          | some ic => (ic.1 : Int)
          | none => -1)) := by
  unfold detectRaw
  rw [foldl_detectStep]
  rw [foldl_overwrite (fun ic => semTok ic.2), foldl_overwrite (fun ic => costoTok ic.2),
    foldl_overwrite (fun ic => actTok ic.2)]

/-- Replacing the `-1` sentinel after an overwriting fold yields exactly the
"last match or default" reading. -/
theorem sentinel_default (o : Option (Nat × String)) (d : Nat) :
    (if (match o with | some ic => (ic.1 : Int) | none => (-1 : Int)) = -1 then (d : Int)
     else (match o with | some ic => (ic.1 : Int) | none => (-1 : Int))).toNat
      = (match o with | some ic => ic.1 | none => d) := by
  cases o with
  | none => simp
  | some ic =>
    have h : ((ic.1 : Int) = -1) = False := by simp only [eq_iff_iff, iff_false]; omega
    simp [h]

/-- The sweep result equals its declarative "last match wins, defaults
`0 / 2 / 9`" description. -/
theorem detectCols_eq_spec (g : Grid) : detectCols g = detectColsSpec g := by
  unfold detectCols detectColsSpec lastMatchIdx
  rw [detectRaw_char]
  simp only [Cols.mk.injEq]
  exact ⟨sentinel_default _ 0, sentinel_default _ 2, sentinel_default _ 9⟩

/-- The sweep only looks at the first 20 rows. -/
theorem scannedCells_take (g : Grid) : scannedCells (g.take 20) = scannedCells g := by
  unfold scannedCells
  rw [List.take_take]
  simp

/-! ## Concrete grids used by counterexamples and witnesses -/

/-- Shorthand blank cell. -/
def bl : Cell := Cell.empty

/-- The default layout `(week 0, activity 2, cost 9)`. -/
def cols0 : Cols := { semana := 0, actividad := 2, costo := 9 }

/-- Grid for C2: a first header row placing the activity token at column 2,
a data row, a month separator, a second header row moving the token to
column 3, and a second data row. -/
def gridC2 : Grid :=
  [[Cell.text "Semana (Lunes)", bl, Cell.text "Actividad", bl, bl, bl, bl, bl, bl,
    Cell.text "Costo Total (Dólares)"],
   [Cell.text "1", bl, Cell.text "Poda", Cell.text "Riego", bl, bl, bl, bl, bl, Cell.num 100],
   [Cell.text "Mes - Octubre"],
   [Cell.text "Semana (Lunes)", bl, bl, Cell.text "Actividad", bl, bl, bl, bl, bl,
    Cell.text "Costo Total (Dólares)"],
   [Cell.text "2", bl, Cell.text "Campo", Cell.text "Cosecha", bl, bl, bl, bl, bl, Cell.num 200]]

def entC2a : CostEntry :=
  { mes := "Desconocido", semana := Cell.text "1", actividad := "Riego",
    costo_USD := 100, categoria := "Insumos" }

def entC2b : CostEntry :=
  { mes := "Octubre", semana := Cell.text "2", actividad := "Cosecha",
    costo_USD := 200, categoria := "Insumos" }

/-- Grid for C8: one data row with no header token anywhere, whose only
numeric value sits in column 10 (the claimed `cost_secondary_col` default);
column 9 is blank. -/
def gridC8 : Grid :=
  [[Cell.text "1", bl, Cell.text "Poda", bl, bl, bl, bl, bl, bl, bl, Cell.num 150]]

/-! ## C2, C8, C9 -/

/-- C2 (counterexample): the claim says data rows before the second header
row read their activity from column 2 ("Poda"); in the code the column sweep
runs once, before any row is scanned, and its last match (column 3) is used
for every row, so the entry extracted from the data row that precedes the
second header already carries "Riego" (column 3), not "Poda". -/
theorem c2_counterexample :
    procesar_hoja_compleja gridC2 "Insumos" = .ok [entC2a, entC2b] ∧
    entC2a.actividad = "Riego" ∧ ¬ entC2a.actividad = "Poda" :=
  ⟨rfl, rfl, by decide⟩

/-- C2 (amended): there is no mid-scan recalibration; the layout is fixed by
a single pre-scan over the first `min(20, number of rows)` rows, and the last
header cell matched in row-major order determines each column index for the
entire scan — including for data rows that precede the later header row. -/
theorem c2_amended (g : Grid) (cat : String) :
    procesar_hoja_compleja g cat = scanFrom (detectColsSpec g) cat "Desconocido" g := by
  unfold procesar_hoja_compleja
  rw [detectCols_eq_spec]

/-- C8 (counterexample): there is no secondary cost column: a data row whose
only (strictly positive) numeric value sits in column 10 — the claimed
`cost_secondary_col` default — produces no entry at all, because the only
cost column read under the default layout is column 9, which is blank here. -/
theorem c8_counterexample :
    procesar_hoja_compleja gridC8 "Insumos" = .ok [] ∧
    (gridC8.getD 0 []).get? 10 = some (Cell.num 150) ∧ (0 : ℚ) < 150 :=
  ⟨rfl, rfl, by norm_num⟩

/-- If no scanned cell matches any header token, the sweep keeps its `-1`
sentinels. -/
theorem detect_foldl_const (l : List (Nat × String)) (acc : Int × Int × Int)
    (h : ∀ ic ∈ l, semTok ic.2 = false ∧ costoTok ic.2 = false ∧ actTok ic.2 = false) :
    l.foldl detectStep acc = acc := by
  induction l generalizing acc with
  | nil => rfl
  | cons x l ih =>
    have hx := h x (List.mem_cons_self _ _)
    obtain ⟨a, b, c⟩ := acc
    rw [List.foldl_cons,
      show detectStep (a, b, c) x = (a, b, c) by simp [detectStep, hx.1, hx.2.1, hx.2.2]]
    exact ih _ (fun ic hic => h ic (List.mem_cons_of_mem _ hic))

/-- C8 (amended): the scanner has exactly three column fields and any field
whose header token is not found among the scanned cells falls back to the
fixed defaults `week_col = 0`, `activity_col = 2`, `cost_col = 9`; in
particular a grid with no header row at all uses this default layout from
the first row, and that is not an error condition. -/
theorem c8_amended (g : Grid)
    (h : ∀ ic ∈ scannedCells g, semTok ic.2 = false ∧ costoTok ic.2 = false ∧ actTok ic.2 = false) :
    detectCols g = cols0 := by
  unfold detectCols detectRaw
  rw [detect_foldl_const _ _ h]
  rfl

/-- C8 (witness): the token-free grid above indeed gets the default layout. -/
theorem c8_witness : detectCols gridC8 = cols0 :=
  c8_amended gridC8 (by decide)

/-- C9: the column-position sweep inspects only the first
`min(20, number of rows)` rows, and each field's index is the column of the
last matching cell in row-major order over that region (or the default when
no cell matches). -/
theorem c9_sweep_last_match :
    (∀ g : Grid, detectCols g = detectCols (g.take 20)) ∧
    (∀ g : Grid, detectCols g = detectColsSpec g) := by
  refine ⟨fun g => ?_, detectCols_eq_spec⟩
  unfold detectCols detectRaw
  rw [scannedCells_take]

/-! ## Helper lemmas: one row of the scan -/

/-- Inversion for an emitting row: an entry is produced only in the innermost
branch of the loop body, so all the guards must have passed and every field
of the entry is determined by the row's cells at the current layout. -/
theorem stepRow_ok_some (c : Cols) (cat m : String) (r : Row) (m' : String) (en : CostEntry)
    (h : stepRow c cat m r = .ok (m', some en)) :
    m' = m ∧ mesCell? r = none ∧
    ∃ w cc ac q, r.get? c.semana = some w ∧ r.get? c.costo = some cc ∧
      r.get? c.actividad = some ac ∧ tryFloat cc = some q ∧ cc.isNA = false ∧
      en = { mes := m, semana := if w.isNA then Cell.text "S/N" else w,
             actividad := if ac.isNA then "Varios" else pyStr ac,
             costo_USD := q, categoria := cat } := by
  unfold stepRow at h
  split at h
  · exact absurd h (by simp)
  split at h
  · exact absurd h (by simp)
  rename_i hmes
  split at h
  · exact absurd h (by simp)
  rename_i w hw
  simp only [Except.ok.injEq, Prod.mk.injEq] at h
  obtain ⟨h1, h2⟩ := h
  unfold rowEntry at h2
  split at h2
  · exact absurd h2 (by simp)
  split at h2
  · exact absurd h2 (by simp)
  rename_i cc hcc
  split at h2
  · exact absurd h2 (by simp)
  rename_i ac hac
  split at h2
  · exact absurd h2 (by simp)
  rename_i hguard
  split at h2
  · exact absurd h2 (by simp)
  rename_i q hq
  have hna : cc.isNA = false := by
    cases hcc' : cc.isNA
    · rfl
    · exact absurd (by rw [hcc']; simp) hguard
  simp only [Option.some.injEq] at h2
  exact ⟨h1.symm, hmes, w, cc, ac, q, hw, hcc, hac, hq, hna, h2.symm⟩

/-! ## C1 -/

/-- Grid for C1: a single data row whose first cell is the text "Total",
whose activity cell (default column 2) is exactly "Total", and whose cost
cell (default column 9) is the non-zero number 150. -/
def gridC1 : Grid :=
  [[Cell.text "Total", bl, Cell.text "Total", bl, bl, bl, bl, bl, bl, Cell.num 150]]

def entC1 : CostEntry :=
  { mes := "Desconocido", semana := Cell.text "Total", actividad := "Total",
    costo_USD := 150, categoria := "Mano de Obra" }

/-- C1 (counterexample): the loop never inspects the activity cell or the
row's first cell for the word "total": a row whose first cell and activity
cell are both exactly "Total" but whose cost cell is the number 150 is
emitted as an ordinary entry (with activity "Total"). -/
theorem c1_counterexample :
    procesar_hoja_compleja gridC1 "Mano de Obra" = .ok [entC1] ∧
    entC1.actividad = "Total" ∧ (0 : ℚ) < entC1.costo_USD :=
  ⟨rfl, rfl, by decide⟩

/-- C1 (amended): "total" rows are excluded only through the cost column: a
row whose cost cell holds non-numeric text (for example a "TOTAL" label
sitting in the cost column) never produces an entry, because `float(...)`
fails and the row is skipped; rows whose activity cell or first cell say
"Total" but whose cost cell is numeric are emitted normally. -/
theorem c1_amended (c : Cols) (cat m : String) (r : Row) (s : String) (m' : String)
    (e? : Option CostEntry) (hcost : r.get? c.costo = some (Cell.text s))
    (hs : pyFloat? s = none) (h : stepRow c cat m r = .ok (m', e?)) : e? = none := by
  cases e? with
  | none => rfl
  | some en =>
    obtain ⟨-, -, w, cc, ac, q, -, hcc, -, hq, -, -⟩ := stepRow_ok_some c cat m r m' en h
    rw [hcost] at hcc
    cases hcc
    rw [show tryFloat (Cell.text s) = pyFloat? s from rfl, hs] at hq
    cases hq

/-- Row for the C1 witness: the cost column holds the text "TOTAL". -/
def rowTot : Row :=
  [Cell.text "1", bl, Cell.text "Poda", bl, bl, bl, bl, bl, bl, Cell.text "TOTAL"]

/-- C1 (witness): a concrete row whose cost cell is the text "TOTAL" is
skipped. -/
theorem c1_witness :
    stepRow cols0 "Mano de Obra" "Octubre" rowTot = .ok ("Octubre", none) ∧
    (Option.none : Option CostEntry) = none :=
  ⟨rfl, c1_amended cols0 "Mano de Obra" "Octubre" rowTot "TOTAL" "Octubre" none rfl rfl rfl⟩

/-! ## C4 -/

/-- Grid for C4: one data row with activity "Fertilizante X" and the numeric
cost `0` in the cost column. -/
def gridC4 : Grid :=
  [[Cell.text "1", bl, Cell.text "Fertilizante X", bl, bl, bl, bl, bl, bl, Cell.num 0]]

def entC4 : CostEntry :=
  { mes := "Desconocido", semana := Cell.text "1", actividad := "Fertilizante X",
    costo_USD := 0, categoria := "Insumos" }

/-- C4 (counterexample): a data row with activity "Fertilizante X" whose cost
cell is the number `0` produces an entry whose cost is `0` — there is no
"both zero → skip" rule and no strict-positivity invariant. -/
theorem c4_counterexample :
    procesar_hoja_compleja gridC4 "Insumos" = .ok [entC4] ∧
    ¬ (0 : ℚ) < entC4.costo_USD :=
  ⟨rfl, by decide⟩

/-- C4 (amended): an emitted entry's cost is exactly the successful numeric
parse of the (single) cost cell, which must be present and non-blank — but it
may be `0`: numeric zero rows are emitted, only blank or unparsable cost
cells cause the row to be skipped. -/
theorem c4_amended (c : Cols) (cat m : String) (r : Row) (m' : String) (en : CostEntry)
    (h : stepRow c cat m r = .ok (m', some en)) :
    tryFloat (r.getD c.costo bl) = some en.costo_USD ∧ (r.getD c.costo bl).isNA = false := by
  obtain ⟨-, -, w, cc, ac, q, -, hcc, -, hq, hna, hen⟩ := stepRow_ok_some c cat m r m' en h
  have hget : r.getD c.costo bl = cc := by
    rw [List.getD_eq_getElem?_getD, ← List.get?_eq_getElem?, hcc]
    rfl
  rw [hget, hen]
  exact ⟨hq, hna⟩

/-- Row for the C4 witness: zero cost in the cost column. -/
def rowZero : Row :=
  [Cell.text "1", bl, Cell.text "Fertilizante X", bl, bl, bl, bl, bl, bl, Cell.num 0]

/-- C4 (witness): the zero-cost row is emitted and its entry's cost is the
parse of its cost cell. -/
theorem c4_witness :
    stepRow cols0 "Insumos" "Desconocido" rowZero = .ok ("Desconocido", some entC4) ∧
    tryFloat (rowZero.getD 9 bl) = some entC4.costo_USD ∧ (rowZero.getD 9 bl).isNA = false :=
  ⟨rfl, c4_amended cols0 "Insumos" "Desconocido" rowZero "Desconocido" entC4 rfl⟩

/-! ## Helper lemmas: month threading -/

/-- `r.getD i bl` returns the cell witnessed by a successful `get?`. -/
theorem getD_of_get? {r : Row} {i : Nat} {x : Cell} (h : r.get? i = some x) :
    r.getD i bl = x := by
  rw [List.getD_eq_getElem?_getD, ← List.get?_eq_getElem?, h]
  rfl

/-- Whatever a row does, its only effect on the current-month state is
`monthUpd`. -/
theorem stepRow_month (c : Cols) (cat m : String) (r : Row) (m' : String)
    (e? : Option CostEntry) (h : stepRow c cat m r = .ok (m', e?)) :
    m' = monthUpd m r := by
  unfold stepRow at h
  split at h
  · exact absurd h (by simp)
  split at h
  · rename_i cell hcell
    simp only [Except.ok.injEq, Prod.mk.injEq] at h
    rw [monthUpd, hcell]
    exact h.1.symm
  rename_i hmes
  have hupd : monthUpd m r = m := by simp [monthUpd, hmes]
  rw [hupd]
  split at h
  · exact absurd h (by simp)
  simp only [Except.ok.injEq, Prod.mk.injEq] at h
  exact h.1.symm

/-- Defining equation of the row loop on a non-empty grid. -/
theorem scanFrom_cons (c : Cols) (cat m : String) (r : Row) (rs : Grid) :
    scanFrom c cat m (r :: rs)
      = match stepRow c cat m r with
        | .error e => .error e
        | .ok (m', e?) =>
          match scanFrom c cat m' rs with
          | .error e => .error e
          | .ok es => .ok (e?.toList ++ es) := rfl

/-- Scanning a concatenation: the second part is scanned with the month
state left behind by the first (fill-forward across the whole scan). -/
theorem scanFrom_append (c : Cols) (cat m : String) (g₁ g₂ : Grid) (es₁ : List CostEntry)
    (h : scanFrom c cat m g₁ = .ok es₁) :
    scanFrom c cat m (g₁ ++ g₂)
      = (scanFrom c cat (monthAfter m g₁) g₂).map (fun es => es₁ ++ es) := by
  induction g₁ generalizing m es₁ with
  | nil =>
    simp only [scanFrom, Except.ok.injEq] at h
    subst h
    simp only [List.nil_append, monthAfter, List.foldl_nil]
    cases hg : scanFrom c cat m g₂ <;> simp [Except.map, hg]
  | cons r g₁ ih =>
    rw [List.cons_append]
    cases hs : stepRow c cat m r with
    | error e =>
      rw [scanFrom_cons, hs] at h
      exact absurd h (by simp)
    | ok p =>
      obtain ⟨m'', e?⟩ := p
      simp only [scanFrom_cons, hs] at h ⊢
      have hma : monthAfter m (r :: g₁) = monthAfter m'' g₁ := by
        simp [monthAfter, stepRow_month c cat m r m'' e? hs]
      cases hrest : scanFrom c cat m'' g₁ with
      | error e => simp only [hrest, reduceCtorEq] at h
      | ok es'' =>
        simp only [hrest, Except.ok.injEq] at h
        subst h
        rw [hma, ih m'' es'' hrest]
        cases hg2 : scanFrom c cat (monthAfter m'' g₁) g₂ <;>
          simp [Except.map, hg2, List.append_assoc]

/-- If no row of `g` carries a month marker, every entry extracted from `g`
keeps the incoming month state. -/
theorem scanFrom_mes_const (c : Cols) (cat : String) :
    ∀ (g : Grid) (m : String) (es : List CostEntry),
      (∀ r ∈ g, mesCell? r = none) → scanFrom c cat m g = .ok es →
      ∀ e ∈ es, e.mes = m := by
  intro g
  induction g with
  | nil =>
    intro m es _ h e he
    simp only [scanFrom, Except.ok.injEq] at h
    subst h
    simp at he
  | cons r rs ih =>
    intro m es hno h e he
    rw [scanFrom_cons] at h
    cases hs : stepRow c cat m r with
    | error er => rw [hs] at h; exact absurd h (by simp)
    | ok p =>
      obtain ⟨m', e?⟩ := p
      simp only [hs] at h
      cases hrest : scanFrom c cat m' rs with
      | error er => simp only [hrest, reduceCtorEq] at h
      | ok es' =>
        simp only [hrest, Except.ok.injEq] at h
        subst h
        have hm : m' = m := by
          rw [stepRow_month c cat m r m' e? hs]
          simp [monthUpd, hno r (List.mem_cons_self _ _)]
        rcases List.mem_append.mp he with h1 | h2
        · cases e? with
          | none => simp at h1
          | some en =>
            simp only [Option.toList_some, List.mem_singleton] at h1
            obtain ⟨-, -, w, cc, ac, q, -, -, -, -, -, hen⟩ :=
              stepRow_ok_some c cat m r m' en hs
            rw [h1, hen]
        · exact hm ▸ ih m' es' (fun x hx => hno x (List.mem_cons_of_mem _ hx)) hrest e h2

/-! ## C7 -/

/-- C7: (i) a row carrying a month marker is handled by the month branch no
matter what else it contains — it sets the month extracted from its first
matching cell and produces no entry; (ii) any other outcome leaves the month
state at `monthUpd m r` (unchanged for non-month rows) and any emitted entry
carries the incoming month state, i.e. the month of the most recent
separator above it; (iii) scanning a concatenation threads the month state
of the first part into the second. -/
theorem c7_month_fill_forward :
    (∀ (c : Cols) (cat m : String) (r : Row) (cell : String), r ≠ [] →
        mesCell? r = some cell → stepRow c cat m r = .ok (monthFrom cell, none)) ∧
    (∀ (c : Cols) (cat m : String) (r : Row) (m' : String) (e? : Option CostEntry),
        stepRow c cat m r = .ok (m', e?) →
        m' = monthUpd m r ∧ ∀ en, e? = some en → en.mes = m) ∧
    (∀ (c : Cols) (cat m : String) (g₁ g₂ : Grid) (es₁ : List CostEntry),
        scanFrom c cat m g₁ = .ok es₁ →
        scanFrom c cat m (g₁ ++ g₂)
          = (scanFrom c cat (monthAfter m g₁) g₂).map (fun es => es₁ ++ es)) := by
  refine ⟨fun c cat m r cell hr hcell => ?_, fun c cat m r m' e? h => ?_, scanFrom_append⟩
  · simp [stepRow, List.isEmpty_iff, hr, hcell]
  · refine ⟨stepRow_month c cat m r m' e? h, fun en hen => ?_⟩
    subst hen
    obtain ⟨-, -, w, cc, ac, q, -, -, -, -, -, hen⟩ := stepRow_ok_some c cat m r m' en h
    rw [hen]

/-- C7 (witness): a concrete month-separator row sets the month "Noviembre"
and yields no entry. -/
theorem c7_witness :
    stepRow cols0 "Costos" "Desconocido" [Cell.text "Mes - Noviembre"]
      = .ok ("Noviembre", none) :=
  c7_month_fill_forward.1 cols0 "Costos" "Desconocido" [Cell.text "Mes - Noviembre"]
    "Mes - Noviembre" (by decide) rfl

/-! ## C10 -/

/-- C10: (a) an emitted entry whose week cell is blank carries the literal
week `"S/N"`, and one whose activity cell is blank carries activity
`"Varios"` (substitution, not skipping); (b) on a grid with no
month-separator row, every emitted entry carries the initial placeholder
month `"Desconocido"`. -/
theorem c10_placeholder_defaults :
    (∀ (c : Cols) (cat m : String) (r : Row) (m' : String) (en : CostEntry),
        stepRow c cat m r = .ok (m', some en) →
        ((r.getD c.semana bl).isNA = true → en.semana = Cell.text "S/N") ∧
        ((r.getD c.actividad bl).isNA = true → en.actividad = "Varios")) ∧
    (∀ (g : Grid) (cat : String) (es : List CostEntry),
        (∀ r ∈ g, mesCell? r = none) → procesar_hoja_compleja g cat = .ok es →
        ∀ e ∈ es, e.mes = "Desconocido") := by
  constructor
  · intro c cat m r m' en h
    obtain ⟨-, -, w, cc, ac, q, hw, -, hac, -, -, hen⟩ := stepRow_ok_some c cat m r m' en h
    rw [getD_of_get? hw, getD_of_get? hac, hen]
    constructor
    · intro hna; simp [hna]
    · intro hna; simp [hna]
  · intro g cat es hno h
    exact scanFrom_mes_const (detectCols g) cat g "Desconocido" es hno h

/-- Row for the C10 witness: blank week and activity cells, numeric cost. -/
def rowC10 : Row :=
  [bl, bl, bl, bl, bl, bl, bl, bl, bl, Cell.num 5]

def entC10 : CostEntry :=
  { mes := "Octubre", semana := Cell.text "S/N", actividad := "Varios",
    costo_USD := 5, categoria := "Costos" }

/-- C10 (witness): the blank-week, blank-activity row is emitted with the
placeholders substituted. -/
theorem c10_witness :
    stepRow cols0 "Costos" "Octubre" rowC10 = .ok ("Octubre", some entC10) ∧
    entC10.semana = Cell.text "S/N" ∧ entC10.actividad = "Varios" :=
  ⟨rfl,
   (c10_placeholder_defaults.1 cols0 "Costos" "Octubre" rowC10 "Octubre" entC10 rfl).1 rfl,
   (c10_placeholder_defaults.1 cols0 "Costos" "Octubre" rowC10 "Octubre" entC10 rfl).2 rfl⟩

/-! ## C3 -/

/-- Grid for C3 (the spec's P2 scenario): one month separator "Mes - Octubre"
followed by three data rows of which only the first has a week value. -/
def gridC3 : Grid :=
  [[Cell.text "Mes - Octubre"],
   [Cell.text "1", bl, Cell.text "Poda", bl, bl, bl, bl, bl, bl, Cell.num 10],
   [bl, bl, Cell.text "Riego", bl, bl, bl, bl, bl, bl, Cell.num 20],
   [bl, bl, Cell.text "Abono", bl, bl, bl, bl, bl, bl, Cell.num 30]]

def entC3a : CostEntry :=
  { mes := "Octubre", semana := Cell.text "1", actividad := "Poda",
    costo_USD := 10, categoria := "Mano de Obra" }

def entC3b : CostEntry :=
  { mes := "Octubre", semana := Cell.text "S/N", actividad := "Riego",
    costo_USD := 20, categoria := "Mano de Obra" }

def entC3c : CostEntry :=
  { mes := "Octubre", semana := Cell.text "S/N", actividad := "Abono",
    costo_USD := 30, categoria := "Mano de Obra" }

/-- C3 (counterexample): on the P2 grid the three entries carry weeks
"1", "S/N", "S/N" — the week is never carried forward and never prefixed
with "Semana", so not all three entries have week "Semana 1". -/
theorem c3_counterexample :
    procesar_hoja_compleja gridC3 "Mano de Obra" = .ok [entC3a, entC3b, entC3c] ∧
    ¬ entC3b.semana = Cell.text "Semana 1" :=
  ⟨rfl, by decide⟩

/-- C3 (amended): month fill-forward does hold (all three entries carry
month "Octubre"), but the week field is not filled forward: an emitted
entry's week is its own row's raw week cell, with a blank week cell
replaced by the placeholder "S/N" and no "Semana" prefix added. -/
theorem c3_amended :
    (∀ (c : Cols) (cat m : String) (r : Row) (m' : String) (en : CostEntry),
        stepRow c cat m r = .ok (m', some en) →
        en.semana = (if (r.getD c.semana bl).isNA then Cell.text "S/N"
                     else r.getD c.semana bl)) ∧
    (procesar_hoja_compleja gridC3 "Mano de Obra" = .ok [entC3a, entC3b, entC3c] ∧
     entC3a.mes = "Octubre" ∧ entC3b.mes = "Octubre" ∧ entC3c.mes = "Octubre" ∧
     entC3a.semana = Cell.text "1" ∧ entC3b.semana = Cell.text "S/N" ∧
     entC3c.semana = Cell.text "S/N") := by
  refine ⟨fun c cat m r m' en h => ?_, rfl, rfl, rfl, rfl, rfl, rfl, rfl⟩
  obtain ⟨-, -, w, cc, ac, q, hw, -, -, -, -, hen⟩ := stepRow_ok_some c cat m r m' en h
  rw [getD_of_get? hw, hen]

/-- Row for the C3 witness: blank week cell, data elsewhere. -/
def rowC3w : Row :=
  [bl, bl, Cell.text "Riego", bl, bl, bl, bl, bl, bl, Cell.num 20]

def entC3w : CostEntry :=
  { mes := "Octubre", semana := Cell.text "S/N", actividad := "Riego",
    costo_USD := 20, categoria := "Mano de Obra" }

/-- C3 (witness): the blank-week row is emitted with week "S/N". -/
theorem c3_witness :
    stepRow cols0 "Mano de Obra" "Octubre" rowC3w = .ok ("Octubre", some entC3w) ∧
    entC3w.semana = Cell.text "S/N" :=
  ⟨rfl, c3_amended.1 cols0 "Mano de Obra" "Octubre" rowC3w "Octubre" entC3w rfl⟩

/-! ## C6 -/

/-- Grid for C6: separator "Mes - Setiembre", then a data row. -/
def gridC6 : Grid :=
  [[Cell.text "Mes - Setiembre"],
   [Cell.text "1", bl, Cell.text "Poda", bl, bl, bl, bl, bl, bl, Cell.num 10]]

def entC6 : CostEntry :=
  { mes := "Setiembre", semana := Cell.text "1", actividad := "Poda",
    costo_USD := 10, categoria := "Insumos" }

/-- Grid for the C6 amendment: an upper-case separator cell. -/
def gridC6b : Grid :=
  [[Cell.text "MES - OCTUBRE"],
   [Cell.text "1", bl, Cell.text "Poda", bl, bl, bl, bl, bl, bl, Cell.num 10]]

def entC6b : CostEntry :=
  { mes := "Desconocido", semana := Cell.text "1", actividad := "Poda",
    costo_USD := 10, categoria := "Insumos" }

/-- C6 (counterexample): no spelling folding happens — under the separator
"Mes - Setiembre" the emitted entry carries month "Setiembre", not the
claimed canonical "Septiembre". -/
theorem c6_counterexample :
    procesar_hoja_compleja gridC6 "Insumos" = .ok [entC6] ∧
    ¬ entC6.mes = "Septiembre" :=
  ⟨rfl, by decide⟩

/-- C6 (amended): month detection looks for the case-sensitive literal
"Mes -" in each cell's text; the month is the text between the first and
second hyphen, whitespace-trimmed and otherwise verbatim (no capitalization,
no spelling folding): "Mes - Setiembre" yields month "Setiembre", and an
all-caps "MES - OCTUBRE" cell is not recognized as a separator at all (the
row falls through and the month stays "Desconocido"). -/
theorem c6_amended :
    (procesar_hoja_compleja gridC6 "Insumos" = .ok [entC6] ∧ entC6.mes = "Setiembre") ∧
    (procesar_hoja_compleja gridC6b "Insumos" = .ok [entC6b] ∧ entC6b.mes = "Desconocido") :=
  ⟨⟨rfl, rfl⟩, ⟨rfl, rfl⟩⟩

/-! ## C5 -/

/-- Grid for C5: the header cell in row 0 moves the week column to index 1;
row 1 is shorter than that, so the week-cell read at line 84 of the source —
which sits outside the `try` — raises an uncaught `IndexError`. -/
def gridC5 : Grid :=
  [[Cell.text "x", Cell.text "Semana (Lunes a Domingo)"],
   [Cell.text "y"]]

/-- C5 (counterexample): the scan of `gridC5` aborts with an uncaught
exception instead of skipping the short row: the claim's "never raises,
a short row only skips that row" fails for the week column. -/
theorem c5_counterexample :
    procesar_hoja_compleja gridC5 "Insumos" = .error () ∧
    (detectCols gridC5).semana = 1 ∧ (gridC5.getD 1 []).length = 1 :=
  ⟨rfl, rfl, rfl⟩

/-- Every column index recorded by the sweep is the index of a cell of some
row, hence below the uniform row length. -/
theorem scannedCells_fst_lt (g : Grid) (n : Nat) (hrect : ∀ r ∈ g, r.length = n) :
    ∀ ic ∈ scannedCells g, ic.1 < n := by
  intro ic hic
  unfold scannedCells at hic
  rw [List.mem_flatMap] at hic
  obtain ⟨r, hr, hic⟩ := hic
  obtain ⟨i, v⟩ := ic
  rw [List.enum_eq_zip_range] at hic
  have hi := List.mem_range.mp (List.of_mem_zip hic).1
  rw [rowStrsLower, List.length_map, hrect r (List.take_subset 20 g hr)] at hi
  exact hi

/-- On a rectangular grid of positive width the week column the scan uses is
always in range. -/
theorem detectCols_semana_lt (g : Grid) (n : Nat) (hn : 1 ≤ n)
    (hrect : ∀ r ∈ g, r.length = n) : (detectCols g).semana < n := by
  rw [detectCols_eq_spec]
  show lastMatchIdx semTok g 0 < n
  unfold lastMatchIdx
  cases hf : (scannedCells g).reverse.find? (fun ic => semTok ic.2) with
  | none => exact hn
  | some ic =>
    exact scannedCells_fst_lt g n hrect ic (List.mem_reverse.mp (List.mem_of_find?_eq_some hf))

/-- A row at least as long as the week column index is always handled
without an uncaught exception. -/
theorem stepRow_total (c : Cols) (cat m : String) (r : Row) (h0 : r ≠ [])
    (hs : c.semana < r.length) : ∃ p, stepRow c cat m r = .ok p := by
  unfold stepRow
  rw [if_neg (by simp [List.isEmpty_iff, h0])]
  cases hmes : mesCell? r with
  | some cell => exact ⟨_, rfl⟩
  | none =>
    rw [List.get?_eq_get hs]
    exact ⟨_, rfl⟩

/-- The row loop never aborts when every row is long enough for the week
column. -/
theorem scanFrom_total (c : Cols) (cat : String) (n : Nat) (hn : 1 ≤ n)
    (hs : c.semana < n) :
    ∀ (g : Grid) (m : String), (∀ r ∈ g, r.length = n) →
      ∃ es, scanFrom c cat m g = .ok es := by
  intro g
  induction g with
  | nil => exact fun m _ => ⟨[], rfl⟩
  | cons r rs ih =>
    intro m hrect
    have hlen : r.length = n := hrect r (List.mem_cons_self _ _)
    have h0 : r ≠ [] := List.length_pos.mp (by omega)
    obtain ⟨⟨m', e?⟩, hstep⟩ := stepRow_total c cat m r h0 (by omega)
    obtain ⟨es, hrest⟩ := ih m' (fun x hx => hrect x (List.mem_cons_of_mem _ hx))
    exact ⟨e?.toList ++ es, by simp [scanFrom_cons, hstep, hrest]⟩

/-- C5 (amended): on the rectangular grids the spreadsheet reader actually
produces (every row of the same positive length), the scanner always
returns normally — out-of-range reads of the cost or activity columns on
narrow grids are caught and merely skip the row; but a (ragged) row
strictly shorter than the week column index aborts the whole scan, because
that read happens outside the `try` block. -/
theorem c5_amended (g : Grid) (cat : String) (n : Nat) (hn : 1 ≤ n)
    (hrect : ∀ r ∈ g, r.length = n) :
    ∃ es, procesar_hoja_compleja g cat = .ok es :=
  scanFrom_total (detectCols g) cat n hn (detectCols_semana_lt g n hn hrect) g
    "Desconocido" hrect

/-- Rectangular grid (all rows of length 10) for the C5 witness. -/
def gridC5w : Grid :=
  [[Cell.text "Mes - Octubre", bl, bl, bl, bl, bl, bl, bl, bl, bl],
   [Cell.text "1", bl, Cell.text "Poda", bl, bl, bl, bl, bl, bl, Cell.num 10]]

/-- C5 (witness): a concrete rectangular grid scans without aborting. -/
theorem c5_witness : ∃ es, procesar_hoja_compleja gridC5w "Insumos" = .ok es :=
  c5_amended gridC5w "Insumos" 10 (by norm_num) (by decide)

end Frutales
